import Mathlib

/-! Shallow embedding of the visualization-transform worker
(crates/worker-visualizations-py).  Python modules are mirrored in
namespaces: Models (models.py), Namer (llm_namer.py), Storage
(storage.py), Fonts (font_patcher.py), Processor (processor.py) and
Worker (main.py).  Machine strings are modeled as Lean String or
List Char, Python ints as Int/Nat, floats that the control flow
depends on (retry delays) as Rat, and fallible calls as Except. -/

namespace VizWorker

/-! ## llm_namer.py: prompt construction

Each provider builds its prompt from the first samples_per_cluster
texts joined by newline.  The literal pieces below are transcribed
from the f-strings in generate_cohere / generate_openai /
generate_internal (llm_namer.py lines 178-183, 255-260, 321-326). -/

namespace Namer

/-- Prompt built by the cohere branch (llm_namer.py lines 174-183).
Note the wording "(2-5 words)" in the source. -/
def generate_cohere_prompt (texts : List String) (samples_per_cluster : Nat) : String :=
  let samples_text := String.intercalate "\n" (texts.take samples_per_cluster)
  "These are representative texts from a document cluster:\n\n"
    ++ samples_text ++ "\n\n"
    ++ "Provide a short, concise topic name (2-5 words) that captures the main theme. "
    ++ "Respond with ONLY the topic name, nothing else."

/-- Prompt built by the openai branch (llm_namer.py lines 252-260),
wording "(2-4 words)". -/
def generate_openai_prompt (texts : List String) (samples_per_cluster : Nat) : String :=
  let samples_text := String.intercalate "\n" (texts.take samples_per_cluster)
  "These are representative texts from a document cluster:\n\n"
    ++ samples_text ++ "\n\n"
    ++ "Provide a short, concise topic name (2-4 words) that captures the main theme. "
    ++ "Respond with ONLY the topic name, nothing else."

/-- Prompt built by the internal branch (llm_namer.py lines 318-326),
wording "(2-4 words)". -/
def generate_internal_prompt (texts : List String) (samples_per_cluster : Nat) : String :=
  let samples_text := String.intercalate "\n" (texts.take samples_per_cluster)
  "These are representative texts from a document cluster:\n\n"
    ++ samples_text ++ "\n\n"
    ++ "Provide a short, concise topic name (2-4 words) that captures the main theme. "
    ++ "Respond with ONLY the topic name, nothing else."

/-- The prompt template exactly as the specification states it (spec
section 4.F, used by claim C5): one block with the wording
"(2-4 words)", the joined samples in the middle. -/
def spec_prompt_template (texts : List String) (samples_per_cluster : Nat) : String :=
  "These are representative texts from a document cluster:\n\n"
    ++ String.intercalate "\n" (texts.take samples_per_cluster)
    ++ "\n\nProvide a short, concise topic name (2-4 words) that captures the main theme. Respond with ONLY the topic name, nothing else."

/-- Variant of the spec template with "(2-5 words)": what the cohere
branch actually sends. -/
def spec_prompt_template_two_to_five (texts : List String) (samples_per_cluster : Nat) : String :=
  "These are representative texts from a document cluster:\n\n"
    ++ String.intercalate "\n" (texts.take samples_per_cluster)
    ++ "\n\nProvide a short, concise topic name (2-5 words) that captures the main theme. Respond with ONLY the topic name, nothing else."

/-! ## llm_namer.py: internal-provider retry loop

generate_internal (lines 333-383) performs up to max_retries = 5 HTTP
POSTs.  On status 503 with attempts left it sleeps
delay + delay * 0.1 * (random.random() - 0.5) seconds, where
delay = base_delay * 2 ^ attempt and base_delay = 1.0, then retries.
On the fifth 503, and on any other status >= 400, raise_for_status
raises at once.  The loop is modeled by the status code of each
attempt (status) and the random draw before each sleep (rand); it
returns the list of sleep durations and either the failing status or
success. -/

/-- Retry loop of generate_internal.  fuel starts at 5 = max_retries;
attempt counts from 0 as in the Python for-loop. -/
def internalRetryLoop (status : Nat → Nat) (rand : Nat → ℚ) :
    Nat → Nat → List ℚ × Except Nat Unit
  | _, 0 => ([], Except.error 503)
  | attempt, fuel + 1 =>
    let st := status attempt
    if st = 503 then
      if attempt < 5 - 1 then
        let delay : ℚ := 1 * 2 ^ attempt
        let jitter : ℚ := delay * (1/10) * (rand attempt - 1/2)
        let total_delay := delay + jitter
        let rest := internalRetryLoop status rand (attempt + 1) fuel
        (total_delay :: rest.1, rest.2)
      else ([], Except.error 503)
    else if 400 ≤ st then ([], Except.error st)
    else ([], Except.ok ())

/-- HTTP phase of generate_internal: the retry loop entered at
attempt 0 with max_retries = 5. -/
def generate_internal_http (status : Nat → Nat) (rand : Nat → ℚ) :
    List ℚ × Except Nat Unit :=
  internalRetryLoop status rand 0 5

end Namer

/-! ## storage.py: S3Storage

upload_visualization (lines 107-178) computes
timestamp = now(utc).strftime("%Y-%m-%dT%H:%M:%SZ"),
bucket = "visualizations-" + str(transform_id),
key = "visualization-" + timestamp + ".html",
calls ensure_bucket_exists (head_bucket, create_bucket on 404) and
put_object, and returns the key.  get_visualization_url and
delete_visualization (lines 180-287) validate that the stored key
starts with "{owner}-{transform_id}-visualizations" and raise
ValueError otherwise. -/

namespace Storage

/-- Decimal digit character, as produced by zero-padded strftime
fields.  Inputs are always reduced mod 10 by the callers. -/
def digitChar (d : Nat) : Char :=
  match d with
  | 0 => '0' | 1 => '1' | 2 => '2' | 3 => '3' | 4 => '4'
  | 5 => '5' | 6 => '6' | 7 => '7' | 8 => '8' | _ => '9'

/-- Two-digit zero-padded field (strftime %m %d %H %M %S). -/
def pad2 (n : Nat) : List Char :=
  [digitChar (n / 10 % 10), digitChar (n % 10)]

/-- Four-digit zero-padded field (strftime %Y; datetime years are at
most 9999). -/
def pad4 (n : Nat) : List Char :=
  [digitChar (n / 1000 % 10), digitChar (n / 100 % 10),
   digitChar (n / 10 % 10), digitChar (n % 10)]

/-- UTC wall-clock components of datetime.now(timezone.utc). -/
structure UTCTime where
  year : Nat
  month : Nat
  day : Nat
  hour : Nat
  minute : Nat
  second : Nat

/-- strftime("%Y-%m-%dT%H:%M:%SZ") on a UTC time. -/
def strftimeTs (t : UTCTime) : List Char :=
  pad4 t.year ++ '-' :: pad2 t.month ++ '-' :: pad2 t.day
    ++ 'T' :: pad2 t.hour ++ ':' :: pad2 t.minute ++ ':' :: pad2 t.second ++ ['Z']

/-- Observable S3 client calls issued by the storage module. -/
inductive S3Effect
  | headBucket (bucket : List Char)
  | createBucket (bucket : List Char)
  | putObject (bucket : List Char) (key : List Char)
  deriving DecidableEq

/-- Outcome of the head_bucket probe inside ensure_bucket_exists:
the bucket exists, head fails with 404/NoSuchBucket, or head fails
with another error (403 and the like). -/
inductive HeadBucketOutcome
  | present
  | missing404
  | errorOther
  deriving DecidableEq

/-- ensure_bucket_exists (storage.py lines 58-105): head the bucket;
on 404/NoSuchBucket create it; on any other error re-raise.  Returns
the S3 calls issued and whether the helper returned normally. -/
def ensure_bucket_exists (bucket : List Char) (head : HeadBucketOutcome) :
    List S3Effect × Except String Unit :=
  match head with
  | HeadBucketOutcome.present =>
    ([S3Effect.headBucket bucket], Except.ok ())
  | HeadBucketOutcome.missing404 =>
    ([S3Effect.headBucket bucket, S3Effect.createBucket bucket], Except.ok ())
  | HeadBucketOutcome.errorOther =>
    ([S3Effect.headBucket bucket], Except.error "bucket check failed")

/-- str on a Python int (matches Lean toString on Int). -/
def intStr (i : Int) : List Char := (toString i).toList

/-- Bucket name f"visualizations-{transform_id}" (storage.py line 137). -/
def bucketName (transform_id : Int) : List Char :=
  "visualizations-".toList ++ intStr transform_id

/-- Object key f"visualization-{timestamp}.html" (storage.py line 138). -/
def uploadKey (now : UTCTime) : List Char :=
  "visualization-".toList ++ strftimeTs now ++ ".html".toList

/-- upload_visualization (storage.py lines 107-178): build bucket and
key, ensure the bucket exists, put the object, return the key.  The
owner, visualization id and html body only feed object metadata and
the put body. -/
def upload_visualization (owner : List Char) (transform_id : Int)
    (visualization_id : Int) (html_content : List Char)
    (now : UTCTime) (head : HeadBucketOutcome) :
    List S3Effect × Except String (List Char) :=
  let bucket := bucketName transform_id
  let key := uploadKey now
  match ensure_bucket_exists bucket head with
  | (effects, Except.ok ()) =>
    (effects ++ [S3Effect.putObject bucket key], Except.ok key)
  | (effects, Except.error e) => (effects, Except.error e)

/-- Ownership prefix required by the read and delete paths
(storage.py lines 204 and 257):
f"{owner}-{transform_id}-visualizations". -/
def ownerKeyCheck (owner : List Char) (transform_id : Int) : List Char :=
  owner ++ '-' :: intStr transform_id ++ "-visualizations".toList

/-- get_visualization_url (storage.py lines 180-235): raise ValueError
unless the key starts with the ownership prefix; the presigned URL
itself comes from the S3 client and is opaque here. -/
def get_visualization_url (owner : List Char) (transform_id : Int)
    (s3_key : List Char) : Except String Unit :=
  if (ownerKeyCheck owner transform_id).isPrefixOf s3_key then Except.ok ()
  else Except.error "ValueError: Invalid S3 key for this owner/transform"

/-- delete_visualization (storage.py lines 237-287): same ownership
validation, then delete_object. -/
def delete_visualization (owner : List Char) (transform_id : Int)
    (s3_key : List Char) : Except String Unit :=
  if (ownerKeyCheck owner transform_id).isPrefixOf s3_key then Except.ok ()
  else Except.error "ValueError: Invalid S3 key for this owner/transform"

/-- Digit test for the key-scheme regular expressions. -/
def isDigitCh (c : Char) : Bool := '0' ≤ c && c ≤ '9'

/-- Consume exactly n decimal digits. -/
def expectDigits : Nat → List Char → Option (List Char)
  | 0, s => some s
  | _ + 1, [] => none
  | n + 1, c :: cs => if isDigitCh c then expectDigits n cs else none

/-- Consume one expected character. -/
def expectChar (c : Char) : List Char → Option (List Char)
  | [] => none
  | x :: xs => if x = c then some xs else none

/-- Helper: strip a literal from the front of a list. -/
def stripLitExact : List Char → List Char → Option (List Char)
  | [], s => some s
  | _, [] => none
  | l :: ls, c :: cs => if l = c then stripLitExact ls cs else none

/-- Matcher for the timestamp-and-suffix tail shared by the key-scheme
regular expressions:
\d4-\d2-\d2T\d2:\d2:\d2Z\.html anchored at end. -/
def matchTsTail (s : List Char) : Bool :=
  (do
    let s ← expectDigits 4 s
    let s ← expectChar '-' s
    let s ← expectDigits 2 s
    let s ← expectChar '-' s
    let s ← expectDigits 2 s
    let s ← expectChar 'T' s
    let s ← expectDigits 2 s
    let s ← expectChar ':' s
    let s ← expectDigits 2 s
    let s ← expectChar ':' s
    let s ← expectDigits 2 s
    let s ← expectChar 'Z' s
    let s ← stripLitExact ".html".toList s
    if s.isEmpty then some () else none : Option Unit).isSome

/-- The key scheme claimed by the specification (claim C2):
visualizations/\d+/visualization- then the timestamp tail. -/
def matchesClaimKeyScheme (s : List Char) : Bool :=
  match stripLitExact "visualizations/".toList s with
  | none => false
  | some rest =>
    let ds := rest.takeWhile isDigitCh
    if ds.isEmpty then false
    else
      match stripLitExact ('/' :: "visualization-".toList) (rest.drop ds.length) with
      | none => false
      | some tail => matchTsTail tail

/-- The key scheme the code produces:
visualization- then the timestamp tail, with no bucket prefix. -/
def matchesCodeKeyScheme (s : List Char) : Bool :=
  match stripLitExact "visualization-".toList s with
  | none => false
  | some tail => matchTsTail tail

end Storage

/-! ## models.py: pydantic data model and decoding

VisualizationTransformJob (models.py lines 190-204) binds the inbound
JSON envelope.  All integer fields are declared as plain int and the
string fields as plain str: the model carries no positivity or
non-emptiness constraints.  Decoding below mirrors pydantic v2 on the
shapes the worker receives: required fields must be present with the
declared type, defaulted fields fall back to their default when
absent, unknown fields are ignored.  Rendering-only configuration
fields that are passed verbatim to the black-box datamapplot stage are
not carried.  The job_id UUID is modeled in its canonical dashed
form. -/

namespace Models

/-- JSON value as handed to pydantic after json.loads. -/
inductive Json
  | null
  | bool (b : Bool)
  | int (n : Int)
  | str (s : String)
  | arr (xs : List Json)
  | obj (fields : List (String × Json))

/-- Field lookup in a JSON object. -/
def getField (fields : List (String × Json)) (k : String) : Option Json :=
  (fields.find? (fun p => p.1 == k)).map (fun p => p.2)

/-- QdrantConnectionConfig (models.py lines 12-14). -/
structure QdrantConnectionConfig where
  url : String
  api_key : Option String := none
  deriving DecidableEq

/-- VisualizationConfig (models.py lines 17-173), restricted to the
fields the modeled control flow reads; the remaining fields are
forwarded untouched to the black-box projection/clustering/rendering
stages. -/
structure VisualizationConfig where
  n_neighbors : Int := 15
  metric : String := "cosine"
  min_cluster_size : Int := 15
  min_samples : Option Int := some 5
  llm_batch_size : Int := 10
  samples_per_cluster : Int := 5
  noise_label : String := ""
  deriving DecidableEq

/-- The free-form config bag of LLMConfig (models.py line 183): the
worker reads max_tokens, temperature and samples_per_cluster from it
with .get defaults; temperature is only forwarded to the black-box
clients and is not carried. -/
structure LLMConfigBag where
  max_tokens : Option Int := none
  samples_per_cluster : Option Int := none
  deriving DecidableEq

/-- LLMConfig (models.py lines 176-187). -/
structure LLMConfig where
  llm_id : Int
  provider : String
  model : String
  api_key : String
  config : LLMConfigBag := {}
  deriving DecidableEq

/-- VisualizationTransformJob (models.py lines 190-204). -/
structure VisualizationTransformJob where
  job_id : String
  visualization_transform_id : Int
  visualization_id : Int
  owner_id : String
  embedded_dataset_id : Int
  qdrant_collection_name : String
  visualization_config : VisualizationConfig
  qdrant_config : QdrantConnectionConfig
  llm_config : Option LLMConfig := none
  deriving DecidableEq

/-- Field names declared on VisualizationTransformJob; Python
attribute access on the model succeeds exactly for these names. -/
def jobFieldNames : List String :=
  ["job_id", "visualization_transform_id", "visualization_id",
   "owner_id", "embedded_dataset_id", "qdrant_collection_name",
   "visualization_config", "qdrant_config", "llm_config"]

/-- Hexadecimal digit. -/
def isHexDigit (c : Char) : Bool :=
  ('0' ≤ c && c ≤ '9') || ('a' ≤ c && c ≤ 'f') || ('A' ≤ c && c ≤ 'F')

/-- Canonical dashed UUID form accepted for job_id (8-4-4-4-12 hex
groups). -/
def isCanonicalUUID (s : String) : Bool :=
  let l := s.toList
  l.length == 36 &&
    (List.range 36).all (fun i =>
      let c := l.getD i ' '
      if i == 8 || i == 13 || i == 18 || i == 23 then c == '-'
      else isHexDigit c)

/-- Required int field with pydantic type validation. -/
def reqInt (fields : List (String × Json)) (k : String) : Option Int :=
  match getField fields k with
  | some (Json.int n) => some n
  | _ => none

/-- Required str field with pydantic type validation. -/
def reqStr (fields : List (String × Json)) (k : String) : Option String :=
  match getField fields k with
  | some (Json.str s) => some s
  | _ => none

/-- Defaulted int field: absent falls back to the default, present
must be an int. -/
def optIntD (fields : List (String × Json)) (k : String) (d : Int) : Option Int :=
  match getField fields k with
  | none => some d
  | some (Json.int n) => some n
  | some _ => none

/-- Defaulted str field. -/
def optStrD (fields : List (String × Json)) (k : String) (d : String) : Option String :=
  match getField fields k with
  | none => some d
  | some (Json.str s) => some s
  | some _ => none

/-- Decode VisualizationConfig: every carried field has a default;
unknown fields are ignored. -/
def decodeVisualizationConfig (j : Json) : Option VisualizationConfig :=
  match j with
  | Json.obj fields => do
    let n_neighbors ← optIntD fields "n_neighbors" 15
    let metric ← optStrD fields "metric" "cosine"
    let min_cluster_size ← optIntD fields "min_cluster_size" 15
    let min_samples ←
      match getField fields "min_samples" with
      | none => some (some 5)
      | some Json.null => some none
      | some (Json.int n) => some (some n)
      | some _ => none
    let llm_batch_size ← optIntD fields "llm_batch_size" 10
    let samples_per_cluster ← optIntD fields "samples_per_cluster" 5
    let noise_label ← optStrD fields "noise_label" ""
    some { n_neighbors, metric, min_cluster_size, min_samples,
           llm_batch_size, samples_per_cluster, noise_label }
  | _ => none

/-- Decode QdrantConnectionConfig: url required, api_key optional. -/
def decodeQdrantConfig (j : Json) : Option QdrantConnectionConfig :=
  match j with
  | Json.obj fields => do
    let url ← reqStr fields "url"
    let api_key ←
      match getField fields "api_key" with
      | none => some none
      | some Json.null => some none
      | some (Json.str s) => some (some s)
      | some _ => none
    some { url, api_key }
  | _ => none

/-- Decode the LLM config bag (extra keys beyond the carried ones are
pass-through). -/
def decodeLLMBag (j : Json) : Option LLMConfigBag :=
  match j with
  | Json.obj fields =>
    let max_tokens :=
      match getField fields "max_tokens" with
      | some (Json.int n) => some n
      | _ => none
    let samples_per_cluster :=
      match getField fields "samples_per_cluster" with
      | some (Json.int n) => some n
      | _ => none
    some { max_tokens, samples_per_cluster }
  | _ => none

/-- Decode LLMConfig: llm_id, provider, model and api_key required,
config defaulted to the empty bag. -/
def decodeLLMConfig (j : Json) : Option LLMConfig :=
  match j with
  | Json.obj fields => do
    let llm_id ← reqInt fields "llm_id"
    let provider ← reqStr fields "provider"
    let model ← reqStr fields "model"
    let api_key ← reqStr fields "api_key"
    let config ←
      match getField fields "config" with
      | none => some ({} : LLMConfigBag)
      | some b => decodeLLMBag b
    some { llm_id, provider, model, api_key, config }
  | _ => none

/-- Decode VisualizationTransformJob: the pydantic validation applied
to the message body.  Type-level structure only: presence of required
fields, declared types, UUID format for job_id.  No positivity check
on the integer ids, no non-emptiness check on the collection name. -/
def decodeJob (j : Json) : Option VisualizationTransformJob :=
  match j with
  | Json.obj fields => do
    let job_id ← reqStr fields "job_id"
    if isCanonicalUUID job_id then
      let visualization_transform_id ← reqInt fields "visualization_transform_id"
      let visualization_id ← reqInt fields "visualization_id"
      let owner_id ← reqStr fields "owner_id"
      let embedded_dataset_id ← reqInt fields "embedded_dataset_id"
      let qdrant_collection_name ← reqStr fields "qdrant_collection_name"
      let visualization_config ←
        (getField fields "visualization_config").bind decodeVisualizationConfig
      let qdrant_config ←
        (getField fields "qdrant_config").bind decodeQdrantConfig
      let llm_config ←
        match getField fields "llm_config" with
        | none => some none
        | some Json.null => some none
        | some c => (decodeLLMConfig c).map some
      some { job_id, visualization_transform_id, visualization_id,
             owner_id, embedded_dataset_id, qdrant_collection_name,
             visualization_config, qdrant_config, llm_config }
    else none
  | _ => none

/-- StatsJson content of a status envelope: empty, an interim
stage/progress record, or the final statistics record. -/
inductive StatsJson
  | empty
  | progress (stage : String) (progress_percent : Nat)
  | finals (unique_clusters : Nat) (noise_points : Nat)
  deriving DecidableEq

/-- VisualizationTransformResult (models.py lines 207-233): the
outbound status envelope.  Wire serialization uses camel-case aliases
and drops None-valued fields. -/
structure VisualizationTransformResult where
  job_id : String
  visualization_transform_id : Int
  visualization_id : Int
  owner_id : String
  status : String
  html_s3_key : Option (List Char) := none
  point_count : Option Nat := none
  cluster_count : Option Nat := none
  processing_duration_ms : Option Nat := none
  error_message : Option String := none
  stats_json : StatsJson := StatsJson.empty
  deriving DecidableEq

/-- Keys present in model_dump_json_safe output (by_alias = true,
exclude_none = true): optional fields appear only when set; statsJson
is a dict and always serializes. -/
def serializedKeys (r : VisualizationTransformResult) : List String :=
  ["jobId", "visualizationTransformId", "visualizationId", "ownerId", "status"]
    ++ (if r.html_s3_key.isSome then ["htmlS3Key"] else [])
    ++ (if r.point_count.isSome then ["pointCount"] else [])
    ++ (if r.cluster_count.isSome then ["clusterCount"] else [])
    ++ (if r.processing_duration_ms.isSome then ["processingDurationMs"] else [])
    ++ (if r.error_message.isSome then ["errorMessage"] else [])
    ++ ["statsJson"]

end Models

/-! ## processor.py: pipeline orchestrator

process_job (lines 54-164) runs five stages, invoking the progress
callback with fixed (stage, percent) anchors around each stage.  The
projection, clustering and rendering stages and the vector fetch are
external black boxes (spec section 6.4) and enter the model as stage
outcomes; the fetch outcome carries the number of fetched vectors and
the per-point hover texts, the clustering outcome the per-point
integer labels with noise encoded as -1, the rendering outcome the
final HTML (rendering already includes the font patch applied at
processor.py line 698).  LLM naming is modeled by a per-cluster
oracle giving the outcome of generate_topic_name for that cluster, as
collected by asyncio.gather(..., return_exceptions=True). -/

namespace Processor

open Models

/-- Outcomes of the black-box pipeline stages for one job. -/
structure StageOutcomes where
  fetch : Except String (Nat × List String)
  umap : Except String Unit
  cluster : Except String (List Int)
  render : Except String String

/-- Numeric fallback label f"Cluster {cluster_id}". -/
def numericLabel (cluster_id : Int) : String :=
  "Cluster " ++ toString cluster_id

/-- Sorted unique non-noise cluster ids:
sorted([c for c in set(labels) if c >= 0]) (processor.py lines
422-424). -/
def uniqueClusters (labels : List Int) : List Int :=
  ((labels.filter (fun c => 0 ≤ c)).dedup).insertionSort (· ≤ ·)

/-- Non-empty texts of the points of one cluster:
[texts[i] for i in where(labels == c) if texts[i]] (processor.py
lines 489-490). -/
def clusterTexts (labels : List Int) (texts : List String) (c : Int) : List String :=
  (labels.zip texts).filterMap
    (fun p => if p.1 = c ∧ p.2 ≠ "" then some p.2 else none)

/-- Python str.lower on the ASCII provider tags involved. -/
def pyLower (s : String) : String := String.mk (s.data.map Char.toLower)

/-- Python whitespace stripped by str.strip. -/
def pyWs (c : Char) : Bool :=
  c == ' ' || c == '\t' || c == '\n' || c == '\r' || c == '\x0b' || c == '\x0c'

/-- The api_key truthiness-and-strip check of processor.py lines
435-439: the key is non-empty and len(key.strip()) is positive, which
holds exactly when the key holds a non-whitespace character. -/
def apiKeyNonBlank (s : String) : Bool := s.data.any (fun c => !(pyWs c))

/-- The condition under which LLM naming is used (processor.py lines
430-444): a provider object exists, the job carries an LLM config,
and the provider is "internal" (case-insensitively) or the API key is
non-blank. -/
def useLLM (provider_available : Bool) (llm : Option Models.LLMConfig) : Bool :=
  provider_available &&
    match llm with
    | none => false
    | some c => pyLower c.provider == "internal" || apiKeyNonBlank c.api_key

/-- Label assigned to one cluster under LLM naming: numeric when the
cluster has no non-empty texts (the LLM is then never called) or when
the oracle raised, the oracle label otherwise (processor.py lines
486-529). -/
def labelForCluster (labels : List Int) (texts : List String)
    (oracle : Int → Except String String) (c : Int) : String :=
  if (clusterTexts labels texts c).isEmpty then numericLabel c
  else
    match oracle c with
    | Except.error _ => numericLabel c
    | Except.ok name => name

/-- generate_cluster_labels (processor.py lines 394-561).  With LLM
naming active, each non-noise cluster gets its labelForCluster value;
otherwise every cluster gets the numeric label.  The batching of
oracle calls into groups of llm_batch_size only bounds parallelism
and does not change the resulting map, so it is not reflected here.
Exceptions from individual calls are captured by
gather(return_exceptions=True) and never propagate: the function
always returns a map. -/
def generate_cluster_labels (labels : List Int) (texts : List String)
    (provider_available : Bool) (llm : Option Models.LLMConfig)
    (oracle : Int → Except String String) : List (Int × String) :=
  let unique := uniqueClusters labels
  if useLLM provider_available llm then
    unique.map (fun c => (c, labelForCluster labels texts oracle c))
  else
    unique.map (fun c => (c, numericLabel c))

/-- Result dictionary of process_job (processor.py lines 148-158). -/
structure ProcResult where
  html : String
  point_count : Nat
  cluster_count : Nat
  unique_clusters : Nat
  noise_points : Nat
  deriving DecidableEq

/-- Progress events (stage, progress_percent) emitted through the
progress callback. -/
abbrev ProgressEvent := String × Nat

/-- process_job (processor.py lines 54-164): the five stages with
their progress anchors.  Returns the events emitted before returning
or raising, and the outcome.  The number of distinct non-noise
clusters is len(set(labels[labels >= 0])). -/
def process_job (st : StageOutcomes) (provider_available : Bool)
    (llm : Option Models.LLMConfig) (oracle : Int → Except String String) :
    List ProgressEvent × Except String ProcResult :=
  let e1 : List ProgressEvent := [("fetching_vectors", 5)]
  match st.fetch with
  | Except.error e => (e1, Except.error e)
  | Except.ok (n_points, texts) =>
    let e2 := e1 ++ [("fetching_vectors", 20), ("applying_umap", 25)]
    match st.umap with
    | Except.error e => (e2, Except.error e)
    | Except.ok () =>
      let e3 := e2 ++ [("applying_umap", 50), ("clustering", 55)]
      match st.cluster with
      | Except.error e => (e3, Except.error e)
      | Except.ok labels =>
        let e4 := e3 ++ [("clustering", 70), ("naming_clusters", 72)]
        let cluster_labels :=
          generate_cluster_labels labels texts provider_available llm oracle
        let _ := cluster_labels
        let e5 := e4 ++ [("naming_clusters", 85), ("generating_html", 88)]
        match st.render with
        | Except.error e => (e5, Except.error e)
        | Except.ok html =>
          let e6 := e5 ++ [("generating_html", 100)]
          let uniq := ((labels.filter (fun c => 0 ≤ c)).dedup).length
          let noise := (labels.filter (fun c => c = -1)).length
          (e6, Except.ok { html := html, point_count := n_points,
                           cluster_count := uniq, unique_clusters := uniq,
                           noise_points := noise })

/-- The full interim anchor sequence of a successful pipeline run. -/
def fullAnchors : List ProgressEvent :=
  [("fetching_vectors", 5), ("fetching_vectors", 20),
   ("applying_umap", 25), ("applying_umap", 50),
   ("clustering", 55), ("clustering", 70),
   ("naming_clusters", 72), ("naming_clusters", 85),
   ("generating_html", 88), ("generating_html", 100)]

/-- process_visualization_job (processor.py lines 716-735).  Line 734
evaluates job.vector_database_config.connection_url before anything
else; attribute lookup on the pydantic model succeeds only for the
declared field names (models.py lines 190-204), and
vector_database_config is not among them, so Python raises
AttributeError there and the pipeline never starts. -/
def process_visualization_job (job : Models.VisualizationTransformJob)
    (st : StageOutcomes) (provider_available : Bool)
    (oracle : Int → Except String String) :
    List ProgressEvent × Except String ProcResult :=
  if "vector_database_config" ∈ Models.jobFieldNames then
    process_job st provider_available job.llm_config oracle
  else
    ([], Except.error
      "AttributeError: VisualizationTransformJob object has no attribute vector_database_config")

end Processor

/-! ## main.py: worker loop, job handling, message handling -/

namespace Worker

open Models Processor Storage

/-- build_status_subject (main.py lines 135-142). -/
def build_status_subject (owner : String) (embedded_dataset_id : Int)
    (transform_id : Int) : String :=
  "transforms.visualization.status." ++ owner ++ "."
    ++ toString embedded_dataset_id ++ "." ++ toString transform_id

/-- Positive or negative acknowledgement of the NATS message. -/
inductive AckAction
  | ack
  | nak
  deriving DecidableEq

/-- A published status message: subject and envelope. -/
abbrev Published := String × Models.VisualizationTransformResult

/-- The base result skeleton shared by all envelopes of a job
(main.py lines 252-258). -/
def baseResult (job : Models.VisualizationTransformJob) :
    Models.VisualizationTransformResult :=
  { job_id := job.job_id,
    visualization_transform_id := job.visualization_transform_id,
    visualization_id := job.visualization_id,
    owner_id := job.owner_id,
    status := "processing" }

/-- Interim progress envelope (main.py lines 267-274 and 284-293). -/
def progressEnvelope (job : Models.VisualizationTransformJob)
    (stage : String) (progress_percent : Nat) :
    Models.VisualizationTransformResult :=
  { baseResult job with
    stats_json := Models.StatsJson.progress stage progress_percent }

/-- handle_job (main.py lines 231-405).  Publishes the starting
envelope, runs process_visualization_job under the overall timeout,
uploads on success, then publishes one terminal envelope and acks on
a clean publish (naks on a publish failure).  The wall-clock duration
and the publish outcome are external inputs. -/
def handle_job (job : Models.VisualizationTransformJob)
    (st : StageOutcomes) (provider_available : Bool)
    (oracle : Int → Except String String)
    (now : Storage.UTCTime) (head : Storage.HeadBucketOutcome)
    (duration_ms : Nat) (publish_ok : Bool) :
    List Published × AckAction :=
  let subject := build_status_subject job.owner_id job.embedded_dataset_id
    job.visualization_transform_id
  let starting := progressEnvelope job "starting" 0
  let pr := process_visualization_job job st provider_available oracle
  let interim := pr.1.map (fun e => (subject, progressEnvelope job e.1 e.2))
  let terminal :=
    match pr.2 with
    | Except.ok r =>
      match (upload_visualization job.owner_id.toList
          job.visualization_transform_id job.visualization_id
          r.html.toList now head).2 with
      | Except.ok key =>
        { baseResult job with
          status := "success",
          html_s3_key := some key,
          point_count := some r.point_count,
          cluster_count := some r.cluster_count,
          processing_duration_ms := some duration_ms,
          stats_json := Models.StatsJson.finals r.unique_clusters r.noise_points }
      | Except.error e =>
        { baseResult job with
          status := "failed",
          error_message := some ("Exception: " ++ e) }
    | Except.error e =>
      { baseResult job with
        status := "failed",
        error_message := some e }
  ((subject, starting) :: interim ++ [(subject, terminal)],
   if publish_ok then AckAction.ack else AckAction.nak)

/-- Failure counter labels incremented by message_handler. -/
inductive FailureKind
  | validation_error
  | json_decode_error
  deriving DecidableEq

/-- message_handler (main.py lines 408-468).  The body is json.loads
output or a decode failure.  A JSON parse failure or a pydantic
ValidationError positively acks the message, counts the failure, and
publishes nothing; otherwise the job is handled. -/
def message_handler (body : Except Unit Models.Json)
    (st : StageOutcomes) (provider_available : Bool)
    (oracle : Int → Except String String)
    (now : Storage.UTCTime) (head : Storage.HeadBucketOutcome)
    (duration_ms : Nat) (publish_ok : Bool) :
    List Published × AckAction × Option FailureKind :=
  match body with
  | Except.error _ => ([], AckAction.ack, some FailureKind.json_decode_error)
  | Except.ok j =>
    match Models.decodeJob j with
    | none => ([], AckAction.ack, some FailureKind.validation_error)
    | some job =>
      let r := handle_job job st provider_available oracle now head
        duration_ms publish_ok
      (r.1, r.2, none)

end Worker

/-! ## font_patcher.py: asset rewrite and verifier

The removal patterns (font_patcher.py lines 23-81), the insertion of
the embedded font style block after the first head tag (lines
194-224) and the verifier (lines 241-274) are regular-expression
based.  The expressions involved use only case-insensitive literals,
single-character classes and greedy star/plus/optional over a
character class, so they are embedded through a small backtracking
matcher with exactly those constructs; greedy longest-first
backtracking matches the Python re semantics for these patterns.
The matcher carries fuel for structural termination; all uses supply
fuel that cannot run out on the given input. -/

namespace Fonts

/-- Regular-expression atoms used by the font patterns: a
case-insensitive literal, a single character of a class, and greedy
star/plus/optional over a class. -/
inductive RAtom
  | lit (s : List Char)
  | cls (p : Char → Bool)
  | star (p : Char → Bool)
  | plus (p : Char → Bool)
  | opt (p : Char → Bool)

/-- Case-insensitive character comparison (re.IGNORECASE on the ASCII
content involved). -/
def ciEq (a b : Char) : Bool := a.toLower == b.toLower

/-- Strip a case-insensitive literal from the front. -/
def stripLitCI : List Char → List Char → Option (List Char)
  | [], s => some s
  | _, [] => none
  | l :: ls, c :: cs => if ciEq l c then stripLitCI ls cs else none

mutual

/-- Match a sequence of atoms at the head of the input, returning the
remainder after the match.  Greedy with backtracking: a star/plus
first consumes the maximal run of its class and retreats one
character at a time until the rest of the pattern matches.  The fuel
bounds the recursion depth; callers supply fuel larger than any
possible depth, so it never runs out. -/
def matchAtoms : Nat → List RAtom → List Char → Option (List Char)
  | 0, _, _ => none
  | _ + 1, [], s => some s
  | f + 1, RAtom.lit l :: as, s => (stripLitCI l s).bind (matchAtoms f as)
  | _ + 1, RAtom.cls _ :: _, [] => none
  | f + 1, RAtom.cls p :: as, c :: cs => if p c then matchAtoms f as cs else none
  | f + 1, RAtom.opt _ :: as, [] => matchAtoms f as []
  | f + 1, RAtom.opt p :: as, c :: cs =>
    if p c then
      match matchAtoms f as cs with
      | some r => some r
      | none => matchAtoms f as (c :: cs)
    else matchAtoms f as (c :: cs)
  | f + 1, RAtom.star p :: as, s =>
    starBacktrack f as s ((s.takeWhile p).length)
  | _ + 1, RAtom.plus _ :: _, [] => none
  | f + 1, RAtom.plus p :: as, c :: cs =>
    if p c then starBacktrack f as cs ((cs.takeWhile p).length) else none

/-- Try consuming k characters of the class run, retreating until the
remaining atoms match. -/
def starBacktrack : Nat → List RAtom → List Char → Nat → Option (List Char)
  | 0, _, _, _ => none
  | f + 1, as, s, 0 => matchAtoms f as s
  | f + 1, as, s, k + 1 =>
    match matchAtoms f as (s.drop (k + 1)) with
    | some r => some r
    | none => starBacktrack f as s k

end

/-- Fuel that can never be exhausted on the given input: one unit per
atom consumed, rebounded per backtrack branch. -/
def enoughFuel (as : List RAtom) (s : List Char) : Nat :=
  (as.length + s.length + 1) * (s.length + 1)

/-- re.sub(pattern, "", s): scan left to right, drop every
non-overlapping leftmost match (all patterns here match at least one
character), copy everything else. -/
def subAll (pat : List RAtom) : Nat → List Char → List Char
  | 0, s => s
  | _, [] => []
  | f + 1, c :: cs =>
    match matchAtoms (enoughFuel pat (c :: cs)) pat (c :: cs) with
    | some rest =>
      if rest.length < cs.length + 1 then subAll pat f rest
      else c :: subAll pat f cs
    | none => c :: subAll pat f cs

/-- re.search returning the split (text up to and including the
match, remainder), used for the head-tag insertion point. -/
def searchSplit (pat : List RAtom) : Nat → List Char → List Char →
    Option (List Char × List Char)
  | 0, _, _ => none
  | f + 1, pre, s =>
    match matchAtoms (enoughFuel pat s) pat s with
    | some rest => some (pre ++ s.take (s.length - rest.length), rest)
    | none =>
      match s with
      | [] => none
      | c :: cs => searchSplit pat f (pre ++ [c]) cs

/-- Characters other than the closing angle bracket: [^>]. -/
def notGt (c : Char) : Bool := c ≠ '>'

/-- Characters other than the closing parenthesis: [^)]. -/
def notRp (c : Char) : Bool := c ≠ ')'

/-- Single or double quote: ["\']. -/
def quoteCh (c : Char) : Bool := c == '"' || c == '\''

/-- Python regex whitespace \s. -/
def wsCh (c : Char) : Bool :=
  c == ' ' || c == '\t' || c == '\n' || c == '\r' || c == '\x0b' || c == '\x0c'

/-- EXTERNAL_RESOURCE_PATTERNS (font_patcher.py lines 23-81), in
source order. -/
def externalResourcePatterns : List (List RAtom) :=
  [ -- <link[^>]*fonts\.googleapis\.com[^>]*>
    [RAtom.lit "<link".toList, RAtom.star notGt,
     RAtom.lit "fonts.googleapis.com".toList, RAtom.star notGt,
     RAtom.lit ">".toList],
    -- <link[^>]*fonts\.gstatic\.com[^>]*>
    [RAtom.lit "<link".toList, RAtom.star notGt,
     RAtom.lit "fonts.gstatic.com".toList, RAtom.star notGt,
     RAtom.lit ">".toList],
    -- <link[^>]*rel=['\"]preconnect['\"][^>]*fonts\.googleapis\.com[^>]*>
    [RAtom.lit "<link".toList, RAtom.star notGt, RAtom.lit "rel=".toList,
     RAtom.cls quoteCh, RAtom.lit "preconnect".toList, RAtom.cls quoteCh,
     RAtom.star notGt, RAtom.lit "fonts.googleapis.com".toList,
     RAtom.star notGt, RAtom.lit ">".toList],
    -- <link[^>]*rel=['\"]preconnect['\"][^>]*fonts\.gstatic\.com[^>]*>
    [RAtom.lit "<link".toList, RAtom.star notGt, RAtom.lit "rel=".toList,
     RAtom.cls quoteCh, RAtom.lit "preconnect".toList, RAtom.cls quoteCh,
     RAtom.star notGt, RAtom.lit "fonts.gstatic.com".toList,
     RAtom.star notGt, RAtom.lit ">".toList],
    -- <link[^>]*maxcdn\.bootstrapcdn\.com[^>]*font-awesome[^>]*>
    [RAtom.lit "<link".toList, RAtom.star notGt,
     RAtom.lit "maxcdn.bootstrapcdn.com".toList, RAtom.star notGt,
     RAtom.lit "font-awesome".toList, RAtom.star notGt,
     RAtom.lit ">".toList],
    -- <link[^>]*cdnjs\.cloudflare\.com[^>]*font-awesome[^>]*>
    [RAtom.lit "<link".toList, RAtom.star notGt,
     RAtom.lit "cdnjs.cloudflare.com".toList, RAtom.star notGt,
     RAtom.lit "font-awesome".toList, RAtom.star notGt,
     RAtom.lit ">".toList],
    -- <link[^>]*fontawesome[^>]*>
    [RAtom.lit "<link".toList, RAtom.star notGt,
     RAtom.lit "fontawesome".toList, RAtom.star notGt,
     RAtom.lit ">".toList],
    -- <link[^>]*rel=['\"]preconnect['\"][^>]*>
    [RAtom.lit "<link".toList, RAtom.star notGt, RAtom.lit "rel=".toList,
     RAtom.cls quoteCh, RAtom.lit "preconnect".toList, RAtom.cls quoteCh,
     RAtom.star notGt, RAtom.lit ">".toList],
    -- @import\s+url\(["\']?https?://fonts\.googleapis\.com[^)]+["\']?\);?
    [RAtom.lit "@import".toList, RAtom.plus wsCh, RAtom.lit "url(".toList,
     RAtom.opt quoteCh, RAtom.lit "http".toList, RAtom.opt (fun c => c == 's'),
     RAtom.lit "://fonts.googleapis.com".toList, RAtom.plus notRp,
     RAtom.opt quoteCh, RAtom.lit ")".toList, RAtom.opt (fun c => c == ';')],
    -- @import\s+url\(["\']?https?://[^)]*font[^)]+["\']?\);?
    [RAtom.lit "@import".toList, RAtom.plus wsCh, RAtom.lit "url(".toList,
     RAtom.opt quoteCh, RAtom.lit "http".toList, RAtom.opt (fun c => c == 's'),
     RAtom.lit "://".toList, RAtom.star notRp, RAtom.lit "font".toList,
     RAtom.plus notRp, RAtom.opt quoteCh, RAtom.lit ")".toList,
     RAtom.opt (fun c => c == ';')] ]

/-- Pattern for the insertion point: <head[^>]*> (font_patcher.py
line 206). -/
def headPattern : List RAtom :=
  [RAtom.lit "<head".toList, RAtom.star notGt, RAtom.lit ">".toList]

/-- The inline style block wrapped around the local font CSS
(font_patcher.py lines 199-203). -/
def fontStyleTag (local_font_css : List Char) : List Char :=
  "<style>\n/* Embedded fonts for offline use - patched by font_patcher.py */\n/* This ensures fonts work in air-gapped environments */\n".toList
    ++ local_font_css ++ "\n</style>".toList

/-- patch_html_fonts (font_patcher.py lines 166-238): apply every
removal pattern with re.sub, then, when local font CSS is available,
insert the style block right after the first head tag, or prepend it
when no head tag exists.  The CSS comes from the filesystem through
get_local_font_css and is an input here. -/
def patch_html_fonts (local_font_css : List Char) (html_content : List Char) :
    List Char :=
  if html_content.isEmpty then html_content
  else
    let stripped := externalResourcePatterns.foldl
      (fun h pat => subAll pat h.length h) html_content
    if local_font_css.isEmpty then stripped
    else
      match searchSplit headPattern stripped.length [] stripped with
      | some (upto, rest) =>
        upto ++ '\n' :: fontStyleTag local_font_css ++ rest
      | none => fontStyleTag local_font_css ++ '\n' :: stripped

/-- URL characters of the verifier pattern: [^\s"\'<>]. -/
def urlCh (c : Char) : Bool :=
  !(wsCh c || c == '"' || c == '\'' || c == '<' || c == '>')

/-- The verifier URL pattern https?://[^\s"\'<>]+ . -/
def urlPattern : List RAtom :=
  [RAtom.lit "http".toList, RAtom.opt (fun c => c == 's'),
   RAtom.lit "://".toList, RAtom.plus urlCh]

/-- re.finditer over the URL pattern: all non-overlapping matches,
left to right. -/
def findAllUrls : Nat → List Char → List (List Char)
  | 0, _ => []
  | _, [] => []
  | f + 1, c :: cs =>
    match matchAtoms (enoughFuel urlPattern (c :: cs)) urlPattern (c :: cs) with
    | some rest =>
      ((c :: cs).take (cs.length + 1 - rest.length)) :: findAllUrls f rest
    | none => findAllUrls f cs

/-- Substring test (Python in-operator on strings). -/
def containsSub (needle : List Char) : List Char → Bool
  | [] => needle.isEmpty
  | c :: cs => needle.isPrefixOf (c :: cs) || containsSub needle cs

/-- Domains flagged by the verifier (font_patcher.py lines 262-270). -/
def blockedDomains : List (List Char) :=
  ["fonts.googleapis.com".toList, "fonts.gstatic.com".toList,
   "maxcdn.bootstrapcdn.com".toList, "cdnjs.cloudflare.com".toList,
   "fontawesome".toList, "unpkg.com".toList]

/-- verify_no_external_requests (font_patcher.py lines 241-274): all
URLs of the content whose lower-cased text contains a blocked
domain. -/
def verify_no_external_requests (html_content : List Char) : List (List Char) :=
  (findAllUrls html_content.length html_content).filter
    (fun url => blockedDomains.any
      (fun d => containsSub d (url.map Char.toLower)))

end Fonts

end VizWorker

open VizWorker VizWorker.Models VizWorker.Storage VizWorker.Namer
open VizWorker.Fonts VizWorker.Processor VizWorker.Worker

/-! ## Concrete instances used by the claim theorems -/

/-- The scenario-1 job envelope of the specification: owner u1,
embedded dataset 7, transform 42, visualization 100, default
configuration, no LLM config. -/
def scenario1_job : VisualizationTransformJob :=
  { job_id := "123e4567-e89b-12d3-a456-426614174000",
    visualization_transform_id := 42,
    visualization_id := 100,
    owner_id := "u1",
    embedded_dataset_id := 7,
    qdrant_collection_name := "scenario-collection",
    visualization_config := {},
    qdrant_config := { url := "http://qdrant:6334" },
    llm_config := none }

/-- Black-box stage outcomes for a healthy 500-point collection. -/
def okStages500 : StageOutcomes :=
  { fetch := Except.ok (500, List.replicate 500 "text"),
    umap := Except.ok (),
    cluster := Except.ok (List.replicate 500 0),
    render := Except.ok "<html>viz</html>" }

/-- An LLM oracle that always succeeds. -/
def trivialOracle : Int → Except String String := fun _ => Except.ok "Topic"

/-- A fixed upload wall clock. -/
def t0 : UTCTime := ⟨2026, 1, 2, 3, 4, 5⟩

/-- The scenario-1 run of handle_job: healthy stages, bucket present,
publish succeeds. -/
def scenario1_run : List Published × AckAction :=
  handle_job scenario1_job okStages500 true trivialOracle t0
    HeadBucketOutcome.present 1000 true

/-- The object key the code produces at time t0. -/
def c2_produced_key : List Char :=
  "visualization-2026-01-02T03:04:05Z.html".toList

/-- The object key produced at time t0, for the round-trip claim. -/
def c10_produced_key : List Char :=
  "visualization-2026-01-02T03:04:05Z.html".toList

/-- Small healthy stage outcomes for the decoder claims. -/
def c4_stages : StageOutcomes :=
  { fetch := Except.ok (2, ["a", "b"]),
    umap := Except.ok (),
    cluster := Except.ok [0, 0],
    render := Except.ok "<html>s</html>" }

/-- Syntactically valid JSON envelope with a non-positive transform id
and an empty collection name; every field type-checks. -/
def c4_bad_envelope : Json :=
  Json.obj
    [("job_id", Json.str "123e4567-e89b-12d3-a456-426614174000"),
     ("visualization_transform_id", Json.int (-1)),
     ("visualization_id", Json.int 100),
     ("owner_id", Json.str "u1"),
     ("embedded_dataset_id", Json.int 7),
     ("qdrant_collection_name", Json.str ""),
     ("visualization_config", Json.obj []),
     ("qdrant_config", Json.obj [("url", Json.str "http://qdrant:6334")])]

/-- Envelope with a genuine type-level violation: the collection name
is an integer instead of a string. -/
def c4_wrongtype_envelope : Json :=
  Json.obj
    [("job_id", Json.str "123e4567-e89b-12d3-a456-426614174000"),
     ("visualization_transform_id", Json.int 42),
     ("visualization_id", Json.int 100),
     ("owner_id", Json.str "u1"),
     ("embedded_dataset_id", Json.int 7),
     ("qdrant_collection_name", Json.int 5),
     ("visualization_config", Json.obj []),
     ("qdrant_config", Json.obj [("url", Json.str "http://qdrant:6334")])]

/-- Labels with three clusters and one noise point. -/
def c8_labels : List Int := [0, 0, 1, 2, -1]

/-- Texts matching c8_labels positionally. -/
def c8_texts : List String := ["a", "a", "b", "c", "z"]

/-- Internal-provider LLM config (no API key needed). -/
def c8_llm : LLMConfig :=
  { llm_id := 1, provider := "internal", model := "m", api_key := "" }

/-- Oracle that raises exactly on cluster 1. -/
def c8_oracle : Int → Except String String :=
  fun c => if c = 1 then Except.error "boom" else Except.ok "Topic"

/-- Small healthy stage outcomes for the progress claim. -/
def c9_stages : StageOutcomes :=
  { fetch := Except.ok (3, ["a", "b", "c"]),
    umap := Except.ok (),
    cluster := Except.ok [0, 0, -1],
    render := Except.ok "<html>p</html>" }

/-- The pipeline result of c9_stages. -/
def c9_result : ProcResult :=
  { html := "<html>p</html>", point_count := 3, cluster_count := 1,
    unique_clusters := 1, noise_points := 1 }

/-- HTML with a bare unpkg URL: no link tag, no import rule. -/
def c3_bare_html : List Char := "see https://unpkg.com/x for deps".toList

/-- HTML whose only external references are Google-Fonts link tags,
as in the repository test sample. -/
def c3_sample_html : List Char :=
  "<html><head><link href=\"https://fonts.googleapis.com/css?family=Roboto:400,700\" rel=\"stylesheet\"><link href='https://fonts.googleapis.com/css?family=Playfair+Display+SC' rel='stylesheet'></head><body>x</body></html>".toList

/-- A local embedded font CSS block with no external URL. -/
def c3_local_css : List Char :=
  "@font-face src: url(data:font/woff2;base64,AAAA);".toList

/-! ## Helper lemmas -/

/-- Every digit character produced by the zero-padded formatter is a
decimal digit. -/
theorem isDigitCh_digitChar (d : Nat) : isDigitCh (digitChar d) = true := by
  unfold digitChar
  split <;> rfl

/-- No digit character is the letter s. -/
theorem digitChar_beq_s (d : Nat) : (digitChar d == 's') = false := by
  unfold digitChar
  split <;> rfl

/-- Stripping a literal from itself followed by a remainder. -/
theorem stripLitExact_append (l r : List Char) :
    stripLitExact l (l ++ r) = some r := by
  induction l with
  | nil => simp [stripLitExact]
  | cons c cs ih => simp [stripLitExact, ih]

/-- Stripping a literal from exactly itself. -/
theorem stripLitExact_self (l : List Char) :
    stripLitExact l l = some [] := by
  have h := stripLitExact_append l []
  simpa using h

/-- Two zero-padded digits satisfy the digit matcher. -/
theorem expectDigits_pad2 (n : Nat) (r : List Char) :
    expectDigits 2 (pad2 n ++ r) = some r := by
  simp [pad2, expectDigits, isDigitCh_digitChar]

/-- Four zero-padded digits satisfy the digit matcher. -/
theorem expectDigits_pad4 (n : Nat) (r : List Char) :
    expectDigits 4 (pad4 n ++ r) = some r := by
  simp [pad4, expectDigits, isDigitCh_digitChar]

/-- Consuming the expected leading character. -/
theorem expectChar_cons (c : Char) (r : List Char) :
    expectChar c (c :: r) = some r := by
  simp [expectChar]

/-- The timestamp-and-suffix tail of a produced key always matches
the timestamp regular expression. -/
theorem matchTsTail_strftime (t : UTCTime) :
    matchTsTail (strftimeTs t ++ ".html".toList) = true := by
  simp [matchTsTail, strftimeTs, expectDigits_pad4, expectDigits_pad2,
    expectChar_cons, stripLitExact_self, List.append_assoc]

/-- The formatted timestamp contains no letter s. -/
theorem count_s_strftime (t : UTCTime) :
    List.count 's' (strftimeTs t) = 0 := by
  simp [strftimeTs, pad4, pad2, List.count_append, List.count_cons,
    digitChar_beq_s]

/-- A produced object key contains exactly one letter s (inside the
word visualization). -/
theorem count_s_uploadKey (t : UTCTime) :
    List.count 's' (uploadKey t) = 1 := by
  have h1 : List.count 's' ("visualization-".toList) = 1 := by decide
  have h2 : List.count 's' (".html".toList) = 0 := by decide
  simp [uploadKey, List.count_append, count_s_strftime, h1, h2]

/-- The ownership prefix required by the read and delete paths is
never a prefix of a produced key: the prefix ends in the word
visualizations, which holds two letters s, while a produced key holds
only one. -/
theorem ownerKeyCheck_not_prefix (owner : List Char) (tid : Int) (t : UTCTime) :
    (ownerKeyCheck owner tid).isPrefixOf (uploadKey t) = false := by
  cases hb : (ownerKeyCheck owner tid).isPrefixOf (uploadKey t) with
  | false => rfl
  | true =>
    exfalso
    have hpre : ownerKeyCheck owner tid <+: uploadKey t :=
      List.isPrefixOf_iff_prefix.mp hb
    have hsfx : "visualizations".toList <:+ ownerKeyCheck owner tid := by
      refine ⟨owner ++ ('-' :: intStr tid) ++ ['-'], ?_⟩
      have h : "-visualizations".toList = '-' :: "visualizations".toList := rfl
      unfold ownerKeyCheck
      rw [h]
      simp
    have hinf : "visualizations".toList <:+: uploadKey t :=
      (hsfx.isInfix).trans hpre.isInfix
    have hcnt := hinf.sublist.count_le 's'
    have h2 : List.count 's' ("visualizations".toList) = 2 := by decide
    rw [h2, count_s_uploadKey] at hcnt
    omega

/-- Looking up a key in an association list built by pairing each
element of a duplicate-free list with a computed value. -/
theorem lookup_map_pair (f : Int → String) :
    ∀ (l : List Int), l.Nodup → ∀ c ∈ l,
      List.lookup c (l.map (fun x => (x, f x))) = some (f c) := by
  intro l
  induction l with
  | nil => intro _ c hc; cases hc
  | cons a t ih =>
    intro hnd c hc
    rcases List.mem_cons.mp hc with h | h
    · subst h
      simp [List.lookup_cons]
    · have hne : c ≠ a := by
        rintro rfl
        exact (List.nodup_cons.mp hnd).1 h
      have : (c == a) = false := beq_false_of_ne hne
      simp [List.lookup_cons, this]
      exact ih (List.nodup_cons.mp hnd).2 c h

/-! ## Claim theorems -/

/-- C5 counterexample: the prompt the cohere branch sends differs
from the fixed template the claim states (the source says 2-5 words
where the claim says 2-4). -/
theorem c5_cohere_prompt_differs :
    ¬ (Namer.generate_cohere_prompt ["alpha"] 5
        = Namer.spec_prompt_template ["alpha"] 5) := by
  decide

/-- C5 amended: the openai and internal branches send exactly the
claimed verbatim template; the cohere branch sends the same template
with 2-5 words in place of 2-4 words. -/
theorem c5_prompt_templates (texts : List String) (spc : Nat) :
    Namer.generate_openai_prompt texts spc = Namer.spec_prompt_template texts spc
  ∧ Namer.generate_internal_prompt texts spc = Namer.spec_prompt_template texts spc
  ∧ Namer.generate_cohere_prompt texts spc
      = Namer.spec_prompt_template_two_to_five texts spc := by
  have split24 :
      ("\n\nProvide a short, concise topic name (2-4 words) that captures the main theme. Respond with ONLY the topic name, nothing else." : String)
      = "\n\n"
        ++ "Provide a short, concise topic name (2-4 words) that captures the main theme. "
        ++ "Respond with ONLY the topic name, nothing else." := by decide
  have split25 :
      ("\n\nProvide a short, concise topic name (2-5 words) that captures the main theme. Respond with ONLY the topic name, nothing else." : String)
      = "\n\n"
        ++ "Provide a short, concise topic name (2-5 words) that captures the main theme. "
        ++ "Respond with ONLY the topic name, nothing else." := by decide
  refine ⟨?_, ?_, ?_⟩
  · simp only [Namer.generate_openai_prompt, Namer.spec_prompt_template,
      split24, String.append_assoc]
  · simp only [Namer.generate_internal_prompt, Namer.spec_prompt_template,
      split24, String.append_assoc]
  · simp only [Namer.generate_cohere_prompt, Namer.spec_prompt_template_two_to_five,
      split25, String.append_assoc]

/-- C6 counterexample: uploading against a missing bucket issues a
create-bucket call. -/
theorem c6_upload_creates_bucket :
    S3Effect.createBucket "visualizations-42".toList
      ∈ (upload_visualization "u1".toList 42 100 []
          t0 HeadBucketOutcome.missing404).1 := by
  decide

/-- C6 amended: upload_visualization always heads the per-transform
bucket first; when the bucket exists the store effects are exactly
head then put, when the head reports 404 the bucket is created
between head and put, and on any other head error the upload raises
with no put. -/
theorem c6_upload_effects (owner : List Char) (tid vid : Int)
    (html : List Char) (now : UTCTime) :
    (upload_visualization owner tid vid html now HeadBucketOutcome.present).1
      = [S3Effect.headBucket (bucketName tid),
         S3Effect.putObject (bucketName tid) (uploadKey now)]
  ∧ (upload_visualization owner tid vid html now HeadBucketOutcome.missing404).1
      = [S3Effect.headBucket (bucketName tid),
         S3Effect.createBucket (bucketName tid),
         S3Effect.putObject (bucketName tid) (uploadKey now)]
  ∧ (upload_visualization owner tid vid html now HeadBucketOutcome.errorOther).1
      = [S3Effect.headBucket (bucketName tid)]
  ∧ (upload_visualization owner tid vid html now HeadBucketOutcome.errorOther).2
      = Except.error "bucket check failed" := by
  refine ⟨rfl, rfl, rfl, rfl⟩

/-- C2 counterexample: at a concrete upload time the returned key is
visualization-2026-01-02T03:04:05Z.html, which does not match the
claimed scheme visualizations/id/visualization-timestamp.html. -/
theorem c2_key_scheme_cex :
    (upload_visualization "u1".toList 42 100 []
        t0 HeadBucketOutcome.present).2 = Except.ok c2_produced_key
  ∧ matchesClaimKeyScheme c2_produced_key = false := by
  constructor
  · rfl
  · decide

/-- C2 amended: every key a successful upload returns matches
visualization-timestamp.html with no bucket prefix; the transform id
lives in the per-transform bucket name instead. -/
theorem c2_key_scheme (owner : List Char) (tid vid : Int)
    (html : List Char) (now : UTCTime) (head : HeadBucketOutcome)
    (key : List Char)
    (h : (upload_visualization owner tid vid html now head).2 = Except.ok key) :
    matchesCodeKeyScheme key = true := by
  have hk : key = uploadKey now := by
    cases head <;>
      simp [upload_visualization, ensure_bucket_exists] at h <;>
      exact h.symm
  subst hk
  unfold matchesCodeKeyScheme uploadKey
  rw [List.append_assoc, stripLitExact_append]
  exact matchTsTail_strftime now

/-- C2 witness: the amended scheme holds at a concrete upload. -/
theorem c2_key_scheme_witness :
    (upload_visualization "u1".toList 42 100 []
        t0 HeadBucketOutcome.present).2 = Except.ok c2_produced_key
  ∧ matchesCodeKeyScheme c2_produced_key = true := by
  refine ⟨rfl, ?_⟩
  exact c2_key_scheme "u1".toList 42 100 [] t0 HeadBucketOutcome.present
    c2_produced_key rfl

/-- C10 confirmed: a key returned by a successful upload never passes
the ownership prefix check of the read and delete paths, so both
raise ValueError on the round trip. -/
theorem c10_upload_read_delete_mismatch (owner : List Char) (tid vid : Int)
    (html : List Char) (now : UTCTime) (head : HeadBucketOutcome)
    (key : List Char)
    (h : (upload_visualization owner tid vid html now head).2 = Except.ok key) :
    get_visualization_url owner tid key
      = Except.error "ValueError: Invalid S3 key for this owner/transform"
  ∧ delete_visualization owner tid key
      = Except.error "ValueError: Invalid S3 key for this owner/transform" := by
  have hk : key = uploadKey now := by
    cases head <;>
      simp [upload_visualization, ensure_bucket_exists] at h <;>
      exact h.symm
  subst hk
  constructor
  · simp [get_visualization_url, ownerKeyCheck_not_prefix]
  · simp [delete_visualization, ownerKeyCheck_not_prefix]

/-- C10 witness: the round trip fails at a concrete upload. -/
theorem c10_upload_read_delete_mismatch_witness :
    (upload_visualization "u1".toList 42 100 []
        t0 HeadBucketOutcome.present).2 = Except.ok c10_produced_key
  ∧ get_visualization_url "u1".toList 42 c10_produced_key
      = Except.error "ValueError: Invalid S3 key for this owner/transform" := by
  refine ⟨rfl, ?_⟩
  exact (c10_upload_read_delete_mismatch "u1".toList 42 100 [] t0
    HeadBucketOutcome.present c10_produced_key rfl).1

/-- C7 evaluation of the retry loop: with the endpoint answering 503
on every attempt, generate_internal makes 5 attempts and sleeps 4
times; every sleep stays within five percent of 2 ^ attempt seconds
(the computed jitter delay * 0.1 * (random - 0.5) spans plus or minus
five percent, not the plus or minus ten percent the code comment and
the claim state).  Any first status that is an error other than 503
raises at once with no sleep. -/
theorem c7_internal_retry_behavior :
    (∀ (status : Nat → Nat) (rand : Nat → ℚ),
      (∀ n, status n = 503) → (∀ n, 0 ≤ rand n ∧ rand n < 1) →
      (Namer.generate_internal_http status rand).2 = Except.error 503
      ∧ (Namer.generate_internal_http status rand).1.length = 4
      ∧ ∀ i : Fin (Namer.generate_internal_http status rand).1.length,
          2 ^ (i : ℕ) * (19/20) ≤ (Namer.generate_internal_http status rand).1.get i
          ∧ (Namer.generate_internal_http status rand).1.get i < 2 ^ (i : ℕ) * (21/20))
  ∧ (∀ (status : Nat → Nat) (rand : Nat → ℚ),
      400 ≤ status 0 → status 0 ≠ 503 →
      Namer.generate_internal_http status rand = ([], Except.error (status 0))) := by
  constructor
  · intro status rand hs hr
    have run_eq : Namer.generate_internal_http status rand
        = ([1 * 2 ^ 0 + 1 * 2 ^ 0 * (1/10) * (rand 0 - 1/2),
            1 * 2 ^ 1 + 1 * 2 ^ 1 * (1/10) * (rand 1 - 1/2),
            1 * 2 ^ 2 + 1 * 2 ^ 2 * (1/10) * (rand 2 - 1/2),
            1 * 2 ^ 3 + 1 * 2 ^ 3 * (1/10) * (rand 3 - 1/2)],
           Except.error 503) := by
      simp [Namer.generate_internal_http, Namer.internalRetryLoop, hs]
    rw [run_eq]
    refine ⟨rfl, rfl, ?_⟩
    intro i
    have h0 := hr 0
    have h1 := hr 1
    have h2 := hr 2
    have h3 := hr 3
    fin_cases i <;>
      constructor <;>
      · simp only [List.get]
        norm_num
        nlinarith [h0.1, h0.2, h1.1, h1.2, h2.1, h2.2, h3.1, h3.2]
  · intro status rand h400 hne
    simp [Namer.generate_internal_http, Namer.internalRetryLoop, hne, h400]

/-- C7 witness: the evaluation applied at concrete status and random
functions. -/
theorem c7_internal_retry_behavior_witness :
    (Namer.generate_internal_http (fun _ => 503) (fun _ => (1 : ℚ)/2)).2
      = Except.error 503
  ∧ (Namer.generate_internal_http (fun _ => 503) (fun _ => (1 : ℚ)/2)).1.length = 4
  ∧ Namer.generate_internal_http (fun _ => 500) (fun _ => (1 : ℚ)/2)
      = ([], Except.error 500) := by
  have h1 := c7_internal_retry_behavior.1 (fun _ => 503) (fun _ => (1 : ℚ)/2)
    (fun _ => rfl) (fun _ => by norm_num)
  have h2 := c7_internal_retry_behavior.2 (fun _ => 500) (fun _ => (1 : ℚ)/2)
    (by norm_num) (by norm_num)
  exact ⟨h1.1, h1.2.1, h2⟩

/-- C8 confirmed: with LLM naming active, generate_cluster_labels is
total and, for every non-noise cluster, yields the numeric label
Cluster id when the oracle raised on that cluster, and keeps the
oracle label for clusters where the oracle succeeded and the cluster
has sample texts. -/
theorem c8_llm_failure_fallback (labels : List Int) (texts : List String)
    (avail : Bool) (llm : Option LLMConfig)
    (oracle : Int → Except String String)
    (huse : useLLM avail llm = true) :
    ∀ c ∈ uniqueClusters labels,
      (∀ e, oracle c = Except.error e →
        List.lookup c (generate_cluster_labels labels texts avail llm oracle)
          = some (numericLabel c))
      ∧ (∀ name, oracle c = Except.ok name →
          clusterTexts labels texts c ≠ [] →
          List.lookup c (generate_cluster_labels labels texts avail llm oracle)
            = some name) := by
  intro c hc
  have hnd : (uniqueClusters labels).Nodup := by
    unfold uniqueClusters
    exact ((List.perm_insertionSort _ _).nodup_iff).mpr (List.nodup_dedup _)
  have hlook :
      List.lookup c (generate_cluster_labels labels texts avail llm oracle)
        = some (labelForCluster labels texts oracle c) := by
    unfold generate_cluster_labels
    rw [if_pos huse]
    exact lookup_map_pair (labelForCluster labels texts oracle)
      (uniqueClusters labels) hnd c hc
  constructor
  · intro e he
    rw [hlook]
    unfold labelForCluster
    rw [he]
    split <;> rfl
  · intro name hname hts
    rw [hlook]
    unfold labelForCluster
    have hempty : (clusterTexts labels texts c).isEmpty = false := by
      cases h : clusterTexts labels texts c with
      | nil => exact absurd h hts
      | cons a t => simp [h]
    rw [hempty, hname]
    simp

/-- C8 witness: concrete run with the oracle raising exactly on
cluster 1 out of clusters 0, 1, 2. -/
theorem c8_llm_failure_fallback_witness :
    useLLM true (some c8_llm) = true
  ∧ List.lookup 1 (generate_cluster_labels c8_labels c8_texts true
      (some c8_llm) c8_oracle) = some "Cluster 1"
  ∧ List.lookup 0 (generate_cluster_labels c8_labels c8_texts true
      (some c8_llm) c8_oracle) = some "Topic" := by
  refine ⟨by decide, ?_, ?_⟩
  · exact (c8_llm_failure_fallback c8_labels c8_texts true (some c8_llm)
      c8_oracle (by decide) 1 (by decide)).1 "boom" rfl
  · exact (c8_llm_failure_fallback c8_labels c8_texts true (some c8_llm)
      c8_oracle (by decide) 0 (by decide)).2 "Topic" rfl (by decide)

/-- C9 confirmed: for every job, the progress values of the starting
envelope followed by the orchestrator events are non-decreasing; the
emitted events are always a prefix of the fixed anchor sequence
5, 20, 25, 50, 55, 70, 72, 85, 88, 100; and on a successful run the
orchestrator emits exactly that sequence, so the final interim value
is 100, which is at least 88. -/
theorem c9_progress_anchors (st : StageOutcomes) (avail : Bool)
    (llm : Option LLMConfig) (oracle : Int → Except String String) :
    List.Chain' (fun a b => a.2 ≤ b.2)
      (("starting", 0) :: (process_job st avail llm oracle).1)
  ∧ (process_job st avail llm oracle).1 <+: fullAnchors
  ∧ (∀ r, (process_job st avail llm oracle).2 = Except.ok r →
      (process_job st avail llm oracle).1 = fullAnchors)
  ∧ (fullAnchors.map Prod.snd).getLast? = some 100 ∧ 88 ≤ 100 := by
  obtain ⟨f, u, cl, re⟩ := st
  cases f <;> cases u <;> cases cl <;> cases re <;>
    refine ⟨?_, ?_, ?_, by decide, by decide⟩ <;>
    simp only [process_job] <;>
    first
      | decide
      | (simp; done)
      | (intro r hr; decide)

/-- C9 witness: on a concrete successful run the orchestrator emits
exactly the anchor sequence. -/
theorem c9_progress_anchors_witness :
    (process_job c9_stages true none trivialOracle).2 = Except.ok c9_result
  ∧ (process_job c9_stages true none trivialOracle).1 = fullAnchors := by
  refine ⟨rfl, ?_⟩
  exact (c9_progress_anchors c9_stages true none trivialOracle).2.2.1
    c9_result rfl

/-- C1 evaluation at the failing input: on the scenario-1 envelope
with every black-box stage healthy, process_visualization_job raises
AttributeError at its first line (processor.py line 734 reads
job.vector_database_config, a field the model does not declare), so
handle_job publishes a terminal envelope on the claimed subject with
status failed and an errorMessage, not the claimed success with
pointCount 500. -/
theorem c1_scenario1_attribute_error :
    (scenario1_run.1.map Prod.fst).getLast?
      = some "transforms.visualization.status.u1.7.42"
  ∧ (scenario1_run.1.map (fun p => p.2.status)).getLast? = some "failed"
  ∧ (scenario1_run.1.map (fun p => p.2.error_message.isSome)).getLast?
      = some true
  ∧ (scenario1_run.1.map
      (fun p => decide ("errorMessage" ∈ serializedKeys p.2))).getLast?
      = some true
  ∧ (scenario1_run.1.map (fun p => p.2.point_count)).getLast? = some none
  ∧ (process_visualization_job scenario1_job okStages500 true trivialOracle).2
      = Except.error
        "AttributeError: VisualizationTransformJob object has no attribute vector_database_config" := by
  refine ⟨by decide, by decide, by decide, by decide, by decide, rfl⟩

/-- C4 counterexample: a syntactically valid envelope with transform
id -1 and an empty collection name passes pydantic validation, the
job is handled, and status envelopes are published for it. -/
theorem c4_nonpositive_id_decodes :
    (decodeJob c4_bad_envelope).isSome = true
  ∧ (message_handler (Except.ok c4_bad_envelope) c4_stages true trivialOracle
      t0 HeadBucketOutcome.present 5 true).1 ≠ []
  ∧ (message_handler (Except.ok c4_bad_envelope) c4_stages true trivialOracle
      t0 HeadBucketOutcome.present 5 true).2.2 = none := by
  refine ⟨by decide, by decide, by decide⟩

/-- C4 amended: the decoder checks only type-level structure.  The
non-positive-id, empty-name envelope decodes to a job carrying those
values verbatim; a JSON parse failure or a type-level violation (here
a collection name of the wrong type) is positively acknowledged with
the matching failure counter and no published envelope. -/
theorem c4_type_level_validation_only :
    ((decodeJob c4_bad_envelope).map
        (fun j => (j.visualization_transform_id, j.qdrant_collection_name)))
      = some (-1, "")
  ∧ message_handler (Except.error ()) c4_stages true trivialOracle
      t0 HeadBucketOutcome.present 5 true
      = ([], AckAction.ack, some FailureKind.json_decode_error)
  ∧ message_handler (Except.ok c4_wrongtype_envelope) c4_stages true
      trivialOracle t0 HeadBucketOutcome.present 5 true
      = ([], AckAction.ack, some FailureKind.validation_error) := by
  refine ⟨by decide, by decide, by decide⟩

/-- C3 counterexample: the rewrite pass only strips link tags and
at-import rules, so the bare URL https://unpkg.com/x survives patching
and the verifier returns it: verify after patch is not empty for
every HTML string. -/
theorem c3_bare_url_survives :
    verify_no_external_requests (patch_html_fonts [] c3_bare_html)
      = ["https://unpkg.com/x".toList] := by
  decide

set_option maxRecDepth 40000 in
/-- C3 amended: the guarantee holds for artifacts whose external
references are of the removable forms: on the repository test sample
(two Google-Fonts link tags) the verifier flags the raw HTML but
returns the empty list after patching, with or without an embedded
local font block; it does not hold for every HTML string (see the
bare-URL counterexample). -/
theorem c3_link_tags_removed :
    verify_no_external_requests c3_sample_html ≠ []
  ∧ verify_no_external_requests (patch_html_fonts [] c3_sample_html) = []
  ∧ verify_no_external_requests (patch_html_fonts c3_local_css c3_sample_html)
      = [] := by
  refine ⟨by decide, by decide, by decide⟩
